import Mathlib

/-!
# Verification of the SyntaxCheckerServer execution-orchestration engine

Shallow embedding of the request pipeline of `server.js` (language
normalization, snippet wrapping, diagnostic-line remapping, the C++
standard-fallback search, the C/Java/Python syntax checkers with their
temp-file cleanup) together with the execution helpers of the companion
revision (`executeJavaScript`, `executePython`, `executeJava`, `executeC`).

External processes (g++/gcc/javac/python3/node invocations) are modelled as
oracles: a `ProcOutcome` value describes the outcome the process facility
returned for the single concrete command the code runs (exit 0 with
stdout/stderr, or a failure carrying the error object's `stderr` and
`message`).  `Date.now()` is threaded explicitly as a `Nat` parameter
wherever the source reads it.
-/

set_option maxRecDepth 16384

namespace SyntaxCheckerServer

/-- JavaScript `\s` character class restricted to the ASCII whitespace the
server can realistically meet (space, tab, CR, LF, vertical tab, form feed). -/
def jsWhitespace (c : Char) : Bool :=
  c = ' ' || c = '\t' || c = '\r' || c = '\n' || c = '\x0b' || c = '\x0c'

/-- JavaScript `\w` character class: ASCII letters, digits and underscore. -/
def jsWordChar (c : Char) : Bool :=
  c.isAlphanum || c = '_'

/-- `String.prototype.includes`: `pat` occurs as a contiguous substring of `s`.
Executable companion of `List.IsInfix` on the underlying character lists. -/
def strContains (s pat : String) : Bool :=
  s.data.tails.any (fun t => pat.data.isPrefixOf t)

/-- Value of a non-empty digit run, as computed by `parseInt` on the digits. -/
def digitsToNat : List Char → Nat → Nat
  | [], acc => acc
  | c :: rest, acc => digitsToNat rest (acc * 10 + (c.toNat - '0'.toNat))

/-- `\d+` at the head of the list: the maximal digit run (at least one digit)
and the remainder. -/
def parseDigits1 (l : List Char) : Option (Nat × List Char) :=
  let digits := l.takeWhile Char.isDigit
  if digits.isEmpty then none
  else some (digitsToNat digits 0, l.drop digits.length)

/-- One parsed gcc/g++ diagnostic line, the five capture groups of
`/(.*?):(\d+):(\d+):\s*(warning|error):\s*(.*)/`. -/
structure GccDiag where
  file : String
  line : Nat
  column : Nat
  severity : String
  msg : String
deriving DecidableEq

/-- `(warning|error)` at the head of the list. -/
def parseGccSeverity (l : List Char) : Option (String × List Char) :=
  if "warning".data.isPrefixOf l then some ("warning", l.drop 7)
  else if "error".data.isPrefixOf l then some ("error", l.drop 5)
  else none

/-- The part of the gcc diagnostic pattern after the lazy file group:
`:(\d+):(\d+):\s*(warning|error):\s*(.*)`. -/
def parseGccAfterFile (l : List Char) : Option (Nat × Nat × String × String) :=
  match l with
  | ':' :: r1 =>
    match parseDigits1 r1 with
    | none => none
    | some (ln, r2) =>
      match r2 with
      | ':' :: r3 =>
        match parseDigits1 r3 with
        | none => none
        | some (col, r4) =>
          match r4 with
          | ':' :: r5 =>
            match parseGccSeverity (r5.dropWhile jsWhitespace) with
            | none => none
            | some (sev, r7) =>
              match r7 with
              | ':' :: r8 => some (ln, col, sev, String.mk (r8.dropWhile jsWhitespace))
              | _ => none
          | _ => none
      | _ => none
  | _ => none

/-- Leftmost-match scan for the gcc diagnostic pattern: the lazy `(.*?)` file
group grows one character at a time until the rest of the pattern parses. -/
def parseGccLineAux : List Char → List Char → Option GccDiag
  | acc, l =>
    match parseGccAfterFile l with
    | some (ln, col, sev, msg) => some ⟨String.mk acc.reverse, ln, col, sev, msg⟩
    | none =>
      match l with
      | [] => none
      | c :: rest => parseGccLineAux (c :: acc) rest

/-- `line.match(/(.*?):(\d+):(\d+):\s*(warning|error):\s*(.*)/)` applied to one
line of compiler stderr. -/
def parseGccLine (line : String) : Option GccDiag :=
  parseGccLineAux [] line.data

/-- `line.match(/:(\d+):/)`: first colon-delimited line number in a javac
stderr line (used by the Java checker's `details`). -/
def parseJavaDetailLine : List Char → Option Nat
  | [] => none
  | ':' :: rest =>
    (match parseDigits1 rest with
     | some (n, ':' :: _) => some n
     | _ => parseJavaDetailLine rest)
  | _ :: rest => parseJavaDetailLine rest

/-- `", line ` followed by `\d+` at the head of the list (tail of the Python
traceback pattern). -/
def parsePyCommaTail (l : List Char) : Option Nat :=
  if "\", line ".data.isPrefixOf l then
    match parseDigits1 (l.drop 8) with
    | some (n, _) => some n
    | none => none
  else none

/-- Greedy `.*` of `/File ".*", line (\d+)/`: among all split points after
`File "`, the rightmost one whose remainder parses wins. -/
def parsePyAfterFile : List Char → Option Nat → Option Nat
  | l, best =>
    let best' := match parsePyCommaTail l with
      | some n => some n
      | none => best
    match l with
    | [] => best'
    | _ :: rest => parsePyAfterFile rest best'

/-- Leftmost occurrence of `File "` that completes the Python traceback
pattern `/File ".*", line (\d+)/`. -/
def parsePyLineAux : List Char → Option Nat
  | [] => none
  | l@(_ :: rest) =>
    if "File \"".data.isPrefixOf l then
      match parsePyAfterFile (l.drop 6) none with
      | some n => some n
      | none => parsePyLineAux rest
    else parsePyLineAux rest

/-- `line.match(/File ".*", line (\d+)/)` applied to one line of
`py_compile` stderr. -/
def parsePyLine (line : String) : Option Nat :=
  parsePyLineAux line.data

/-- Kernel-computable `String.prototype.split(sep)` for a one-character
separator, accumulator-style. -/
def splitCharAux (sep : Char) : List Char → List Char → List String
  | [], acc => [String.mk acc.reverse]
  | c :: rest, acc =>
    if c = sep then String.mk acc.reverse :: splitCharAux sep rest []
    else splitCharAux sep rest (c :: acc)

/-- `s.split('\n')`. -/
def splitLines (s : String) : List String :=
  splitCharAux '\n' s.data []

/-- `Array.prototype.join('\n')`. -/
def joinNewline : List String → String
  | [] => ""
  | [l] => l
  | l :: rest => l ++ "\n" ++ joinNewline rest

/-- `s.toLowerCase()` on the ASCII identifiers the server receives. -/
def jsToLower (s : String) : String :=
  String.mk (s.data.map Char.toLower)

/-- `s.trim()`. -/
def jsTrim (s : String) : String :=
  String.mk (((s.data.dropWhile jsWhitespace).reverse.dropWhile jsWhitespace).reverse)

/-- `s.slice(n)`: drop the first `n` characters. -/
def dropChars (n : Nat) (s : String) : String :=
  String.mk (s.data.drop n)

/-- One or more `\s` characters at the head of the list, consumed greedily. -/
def matchWs1 (l : List Char) : Option (List Char) :=
  match l with
  | c :: rest => if jsWhitespace c then some (rest.dropWhile jsWhitespace) else none
  | [] => none

/-- `/public\s+class\s+(\w+)/` anchored at the head of the list: on a match,
the captured class name and the remainder after the matched text. -/
def matchPublicClass (l : List Char) : Option (List Char × List Char) :=
  if "public".data.isPrefixOf l then
    match matchWs1 (l.drop 6) with
    | none => none
    | some l2 =>
      if "class".data.isPrefixOf l2 then
        match matchWs1 (l2.drop 5) with
        | none => none
        | some l3 =>
          let name := l3.takeWhile jsWordChar
          if name.isEmpty then none else some (name, l3.drop name.length)
      else none
  else none

/-- Scan for the first `/public\s+class\s+(\w+)/` match, replacing it with
`class $1` (`String.prototype.replace` without the global flag). -/
def replacePublicClassAux : List Char → List Char → List Char
  | acc, [] => acc.reverse
  | acc, l@(c :: rest) =>
    match matchPublicClass l with
    | some (name, after) => acc.reverse ++ ("class ".data ++ name ++ after)
    | none => replacePublicClassAux (c :: acc) rest

/-- `code.replace(/public\s+class\s+(\w+)/, 'class $1')`. -/
def replacePublicClass (s : String) : String :=
  String.mk (replacePublicClassAux [] s.data)

/-! ## Language normalizer (`LANGUAGE_ALIASES`, `normalizeLanguage`) -/

/-- The `LANGUAGE_ALIASES` object, in source insertion order. -/
def languageAliases : List (String × String) :=
  [("javascript", "javascript"), ("js", "javascript"), ("node", "javascript"),
   ("nodejs", "javascript"), ("ecmascript", "javascript"),
   ("typescript", "javascript"), ("ts", "javascript"),
   ("python", "python"), ("py", "python"), ("python3", "python"),
   ("py3", "python"),
   ("java", "java"), ("javase", "java"),
   ("cpp", "cpp"), ("c++", "cpp"), ("cplusplus", "cpp"), ("c++11", "cpp"),
   ("c++14", "cpp"), ("c++17", "cpp"), ("c++20", "cpp"),
   ("c", "c"), ("ansi-c", "c"), ("c11", "c"), ("c17", "c")]

/-- `LANGUAGE_ALIASES[lang.toLowerCase()] || null`. -/
def normalizeLanguage (lang : String) : Option String :=
  languageAliases.lookup (jsToLower lang)

/-- `Object.keys(LANGUAGE_ALIASES)`: the supported alias set reported by the
unsupported-language client error. -/
def supportedLanguages : List String :=
  languageAliases.map Prod.fst

/-! ## Code preparer (`wrapCodeSnippet`) -/

/-- The common-indentation stripping done at the top of `wrapCodeSnippet`:
the first line's leading-whitespace length is removed from every line. -/
def unindentCode (code : String) : String :=
  let lines := splitLines code
  let indentation := ((lines.headD "").data.takeWhile jsWhitespace).length
  joinNewline (lines.map (dropChars indentation))

/-- The C++ wrapper preamble (22 includes, `using namespace std;`, trailing
newline): 24 lines of text followed by a line break. -/
def cppIncludes : String :=
  "#include <iostream>\n#include <vector>\n#include <string>\n#include <map>\n#include <set>\n#include <algorithm>\n#include <concepts>\n#include <type_traits>\n#include <memory>\n#include <functional>\n#include <ranges>\n#include <span>\n#include <numeric>\n#include <iterator>\n#include <optional>\n#include <tuple>\n#include <utility>\n#include <execution>\n#include <compare>\n#include <stdexcept>\n#include <cstdlib>\n#include <cstring>\n#include <cmath>\nusing namespace std;\n"

/-- Suffix appended to template/concept-bearing C++ snippets. -/
def cppTemplateSuffix : String :=
  "\n\n// Ensure there\x27s at least one instantiation for templates\nnamespace test_instantiation \x7b\n    void ensure_instantiation();  // Forward declaration to prevent unused warnings\n\x7d"

/-- The Java import block (11 lines, no trailing newline). -/
def javaImports : String :=
  "import java.util.*;\nimport java.util.stream.*;\nimport java.util.function.*;\nimport java.time.*;\nimport java.math.*;\nimport java.text.*;\nimport java.security.*;\nimport java.util.concurrent.*;\nimport java.util.regex.*;\nimport java.io.*;\nimport static java.util.stream.Collectors.*;"

/-- `` `Solution_${Date.now()}` ``: the synthesized wrapper class name. -/
def javaSyntheticClassName (now : Nat) : String :=
  "Solution_" ++ toString now

/-- Between the synthesized class name and the embedded fragment: the class
body opening and the `main` header. -/
def javaMainOpen : String :=
  " \x7b\n    public static void main(String[] args) \x7b\n        "

/-- After the embedded fragment: closing braces of `main` and the class. -/
def javaMainClose : String :=
  "\n    \x7d\n\x7d"

/-- The Java no-class-declaration wrapper: imports, blank line, synthesized
class with a `main` embedding the unindented fragment. -/
def javaClassWrap (now : Nat) (unindented : String) : String :=
  javaImports ++ "\n\n" ++ ("class " ++ javaSyntheticClassName now) ++
    javaMainOpen ++ unindented ++ javaMainClose

/-- The Python import block (4 lines, no trailing newline). -/
def pythonImports : String :=
  "from typing import List, Optional\nimport math\nimport collections\nimport heapq"

/-- The C wrapper include block (3 lines, no trailing newline). -/
def cIncludes : String :=
  "#include <stdio.h>\n#include <stdlib.h>\n#include <string.h>"

/-- `wrapCodeSnippet(code, language)` of `server.js`, with `Date.now()`
passed explicitly as `now` (read only on the Java no-class path). -/
def wrapCodeSnippet (code language : String) (now : Nat) : String :=
  let unindented := unindentCode code
  let lang := jsToLower language
  if lang = "cpp" then
    if strContains code "template" || strContains code "concept" then
      cppIncludes ++ "\n" ++ unindented ++ cppTemplateSuffix
    else if strContains code "main(" then
      cppIncludes ++ "\n" ++ unindented
    else
      cppIncludes ++ "\nint main() \x7b\n    " ++ unindented ++ "\n    return 0;\n\x7d"
  else if lang = "java" then
    if strContains code "class" then
      javaImports ++ "\n\n" ++ replacePublicClass unindented
    else
      javaClassWrap now unindented
  else if lang = "python" then
    pythonImports ++ "\n\n" ++ unindented
  else if lang = "c" then
    if strContains code "main(" then unindented
    else cIncludes ++ "\n\nint main() \x7b\n    " ++ unindented ++ "\n    return 0;\n\x7d"
  else code

/-! ## Diagnostic extractor (`adjustErrorLineNumbers`) -/

/-- One entry of a checker's `errors` array. -/
structure ErrEntry where
  line : Nat
  column : Nat
  type : String
  message : String
  suggestion : Option String := none
deriving DecidableEq

/-- One entry of a checker's `details` array (Python/Java checkers). -/
structure DetailEntry where
  line : Nat
  message : String
deriving DecidableEq

/-- The result object a syntax checker returns (fields absent from a given
checker's object are `none`). -/
structure CheckResult where
  valid : Bool
  message : Option String := none
  error : Option String := none
  line : Option Nat := none
  column : Option Nat := none
  details : Option (List DetailEntry) := none
  errors : Option (List ErrEntry) := none
  standard : Option String := none
  help : Option String := none
deriving DecidableEq

/-- The hardcoded `wrapperLines` table of `adjustErrorLineNumbers` (the
source's comments call each entry the number of wrapper lines before user
code); `|| 0` for unknown keys. -/
def wrapperLines (language : String) : Nat :=
  if jsToLower language = "cpp" then 24
  else if jsToLower language = "java" then 13
  else if jsToLower language = "python" then 5
  else if jsToLower language = "c" then 5
  else 0

/-- `error.line -= wrapperLines[...]; error.line = Math.max(1, error.line)`,
guarded by JavaScript truthiness of `error.line` (line 0 is left alone). -/
def adjustOneLine (language : String) (n : Nat) : Nat :=
  if n = 0 then 0 else max 1 (n - wrapperLines language)

/-- `adjustErrorLineNumbers(error, language, hasWrapper)` of `server.js`. -/
def adjustErrorLineNumbers (r : CheckResult) (language : String)
    (hasWrapper : Bool) : CheckResult :=
  if !hasWrapper then r
  else
    { r with
      line := r.line.map (adjustOneLine language)
      errors := r.errors.map (List.map (fun e =>
        { e with line := adjustOneLine language e.line })) }

/-! ## Toolchain driver

External process invocations are oracles.  `ProcOutcome.ok stdout stderr`
is a resolved `execAsync` promise (exit status 0); `ProcOutcome.err stderr
message` is a rejected one, carrying the error object's `stderr` and
`message` fields. -/

inductive ProcOutcome where
  | ok (stdout stderr : String)
  | err (stderr message : String)
deriving DecidableEq

/-- The fixed C++ standards list, newest to oldest (`checkCPPSyntax`). -/
def cppStandards : List (String × String) :=
  [("c++20", "C++20"), ("c++17", "C++17"), ("c++14", "C++14"),
   ("c++11", "C++11"), ("c++98", "C++98")]

/-- The dialect-fallback loop of `checkCPPSyntax`: returns
`(success, lastError stderr, usedStandard)`.  A failing attempt whose stderr
does not mention "standard" ends the search at that dialect. -/
def cppSearchLoop (compile : String → ProcOutcome) :
    List (String × String) → Option String → Bool × Option String × Option String
  | [], lastError => (false, lastError, none)
  | (std, name) :: rest, lastError =>
    match compile std with
    | ProcOutcome.ok _ _ => (true, lastError, some name)
    | ProcOutcome.err stderr _ =>
      if strContains stderr "standard" then cppSearchLoop compile rest (some stderr)
      else (false, some stderr, some name)

/-- `getSuggestionForError` of `server.js`. -/
def getSuggestionForError (error : String) : String :=
  if strContains error "undefined reference" then
    "Make sure you have included the necessary header files and implemented all declared functions."
  else if strContains error "expected" then
    "Check for missing semicolons, parentheses, or braces."
  else if strContains error "no matching function" then
    "Verify that the function call matches the function declaration and all types are correct."
  else if strContains error "was not declared" then
    "Make sure you have declared the variable/function before using it or included the necessary header."
  else if strContains error "invalid use of" then
    "Check if you are using the type/variable correctly according to its declaration."
  else
    "Review the syntax and ensure all variables and types are properly declared."

/-- The error-processing block of `checkCPPSyntax`: lines mentioning
"standard" are skipped, the rest go through the gcc diagnostic pattern. -/
def cppParsedDiagnostics (stderr : String) : List GccDiag :=
  ((splitLines stderr).filter (fun l => !(strContains l "standard"))).filterMap parseGccLine

/-- `checkCPPSyntax(code)` of `server.js`, with the per-standard
`g++ -std=<std> -fsyntax-only` invocation as the oracle `compile`. -/
def checkCPPSyntax (compile : String → ProcOutcome) (code : String) : CheckResult :=
  if 1000000 < code.length then
    { valid := false, error := some "Code size exceeds maximum limit of 1MB" }
  else
    match cppSearchLoop compile cppStandards none with
    | (true, _, usedStandard) =>
      { valid := true, message := some "Syntax is valid", standard := usedStandard }
    | (false, some stderr, usedStandard) =>
      let parsed := cppParsedDiagnostics stderr
      -- an empty msg leaves the JS `mainError` falsy, so the first
      -- non-empty error-severity message wins, with the generic fallback
      let mainError :=
        ((parsed.filter (fun d => d.severity = "error")).map GccDiag.msg).find?
          (fun m => m ≠ "")
      { valid := false
        error := some (mainError.getD "Syntax error in C++ code")
        errors := some (parsed.map (fun d =>
          { line := d.line, column := d.column, type := d.severity,
            message := jsTrim d.msg, suggestion := some (getSuggestionForError d.msg) }))
        standard := some (usedStandard.getD "Unknown")
        help := some "Make sure your code follows C++ syntax rules and all required headers are included." }
    | (false, none, _) =>
      -- Unreachable for the non-empty `cppStandards`: the JavaScript code
      -- would throw reading `lastError.stderr` and land in its catch block.
      { valid := false,
        error := some "Cannot read properties of null (reading \x27stderr\x27)",
        errors := some [],
        help := some "An unexpected error occurred while checking the syntax." }

/-- All gcc-pattern diagnostics of one stderr stream (`checkCSyntax`'s
error-processing loop; no suggestions there). -/
def gccDiagnostics (stderr : String) : List ErrEntry :=
  (splitLines stderr).filterMap (fun l =>
    (parseGccLine l).map (fun d =>
      { line := d.line, column := d.column, type := d.severity,
        message := jsTrim d.msg, suggestion := none }))

/-- `checkCSyntax(code)` of `server.js`: a single
`gcc -fsyntax-only -Wall -pedantic` invocation (the oracle `gcc`). -/
def checkCSyntax (gcc : ProcOutcome) (code : String) : CheckResult :=
  if 1000000 < code.length then
    { valid := false, error := some "Code size exceeds maximum limit of 1MB" }
  else
    match gcc with
    | ProcOutcome.ok _ _ => { valid := true, message := some "Syntax is valid" }
    | ProcOutcome.err stderr _ =>
      { valid := false, error := some stderr, errors := some (gccDiagnostics stderr) }

/-- A checker run instrumented with the temp files it wrote and the temp
files its cleanup calls deleted. -/
structure CheckRun where
  result : CheckResult
  tempFilesCreated : List String
  tempFilesDeleted : List String
deriving DecidableEq

/-- `checkJavaSyntax(code)` of `server.js` (the `javac` invocation is the
oracle `compile`; `Date.now()` is `now`), instrumented with its temp-file
traffic: the success path deletes the `.java` and `.class`, the
compile-error path deletes only the `.java`. -/
def checkJavaSyntaxRun (compile : ProcOutcome) (now : Nat) (code : String) : CheckRun :=
  let className := "Solution_" ++ toString now
  let tempFile := className ++ ".java"
  let classFile := className ++ ".class"
  if 1000000 < code.length then
    { result := { valid := false, error := some "Code size exceeds maximum limit of 1MB" },
      tempFilesCreated := [], tempFilesDeleted := [] }
  else
    match compile with
    | ProcOutcome.ok _ _ =>
      { result := { valid := true, message := some "Syntax is valid" },
        tempFilesCreated := [tempFile], tempFilesDeleted := [tempFile, classFile] }
    | ProcOutcome.err stderr _ =>
      { result :=
          { valid := false, error := some stderr,
            details := some ((splitLines stderr).filterMap (fun l =>
              (parseJavaDetailLine l.data).map (fun n => { line := n, message := jsTrim l }))) },
        tempFilesCreated := [tempFile], tempFilesDeleted := [tempFile] }

/-- `checkPythonSyntax(code)` of `server.js` (the `python3 -m py_compile`
invocation is the oracle), instrumented the same way: both the valid and the
compile-error paths delete the temp `.py` file. -/
def checkPythonSyntaxRun (compile : ProcOutcome) (now : Nat) (code : String) : CheckRun :=
  let tempFile := "check_" ++ toString now ++ ".py"
  if 1000000 < code.length then
    { result := { valid := false, error := some "Code size exceeds maximum limit of 1MB" },
      tempFilesCreated := [], tempFilesDeleted := [] }
  else
    match compile with
    | ProcOutcome.ok _ _ =>
      { result := { valid := true, message := some "Syntax is valid" },
        tempFilesCreated := [tempFile], tempFilesDeleted := [tempFile] }
    | ProcOutcome.err stderr _ =>
      { result :=
          { valid := false, error := some stderr,
            details := some ((splitLines stderr).filterMap (fun l =>
              (parsePyLine l).map (fun n => { line := n, message := jsTrim l }))) },
        tempFilesCreated := [tempFile], tempFilesDeleted := [tempFile] }

/-! ## Sandbox execution supervisor (execution helpers of the companion
revision: `executeJavaScript`, `executePython`, `executeJava`, `executeC`) -/

/-- The object an execute helper resolves with. -/
structure ExecResult where
  success : Bool
  output : Option String := none
  error : Option String := none
deriving DecidableEq

/-- `error.message.includes('timed out') ? 'Execution timed out. ...' :
error.message`. -/
def timeoutMappedMessage (msg : String) : String :=
  if strContains msg "timed out" then
    "Execution timed out. Your code took too long to run."
  else msg

/-- `executeJavaScript(code)`: plain `node` run (the oracle `run`); any
non-empty stderr of a zero-exit run is returned as a failure. -/
def executeJavaScript (run : ProcOutcome) : ExecResult :=
  match run with
  | ProcOutcome.ok stdout stderr =>
    if stderr = "" then
      { success := true,
        output := some (if stdout = "" then "Code executed successfully with no output" else stdout) }
    else
      { success := false, error := some stderr }
  | ProcOutcome.err _ message => { success := false, error := some message }

/-- `executePython(code)`: dockerised interpreter run; a zero-exit run is a
success and its stderr (if any) rides along in `error`. -/
def executePython (run : ProcOutcome) : ExecResult :=
  match run with
  | ProcOutcome.ok stdout stderr =>
    { success := true, output := some stdout,
      error := if stderr = "" then none else some stderr }
  | ProcOutcome.err _ message =>
    { success := false, output := none, error := some (timeoutMappedMessage message) }

/-- `executeJava(code)`: dockerised `javac` then `java`, each with its own
timeout; a zero-exit run is a success, stderr riding along in `error`. -/
def executeJava (compileRun runRun : ProcOutcome) : ExecResult :=
  match compileRun with
  | ProcOutcome.err _ message =>
    { success := false, output := none, error := some (timeoutMappedMessage message) }
  | ProcOutcome.ok _ _ =>
    match runRun with
    | ProcOutcome.ok stdout stderr =>
      { success := true, output := some stdout,
        error := if stderr = "" then none else some stderr }
    | ProcOutcome.err _ message =>
      { success := false, output := none, error := some (timeoutMappedMessage message) }

/-- `/int\s+main\s*\([^)]*\)\s*{/` anchored at the head of the list: on a
match, the remainder after the matched text. -/
def matchIntMainBrace (l : List Char) : Option (List Char) :=
  if "int".data.isPrefixOf l then
    match matchWs1 (l.drop 3) with
    | none => none
    | some l2 =>
      if "main".data.isPrefixOf l2 then
        match (l2.drop 4).dropWhile jsWhitespace with
        | '(' :: l4 =>
          let inside := l4.takeWhile (fun c => c ≠ ')')
          match l4.drop inside.length with
          | ')' :: l5 =>
            match l5.dropWhile jsWhitespace with
            | '\x7b' :: l7 => some l7
            | _ => none
          | _ => none
        | _ => none
      else none
  else none

/-- `code.replace(/int\s+main\s*\([^)]*\)\s*{/, '')`: remove the first
match, scanning left to right. -/
def removeFirstIntMain : List Char → List Char → List Char
  | acc, [] => acc.reverse
  | acc, l@(c :: rest) =>
    match matchIntMainBrace l with
    | some after => acc.reverse ++ after
    | none => removeFirstIntMain (c :: acc) rest

/-- Lines of the C execution harness before the user fragment (`executeC`'s
template literal, signal handlers included). -/
def cSignalPrefix : String :=
  "\n#include <stdio.h>\n#include <stdlib.h>\n#include <signal.h>\n#include <string.h>\n\nvoid signal_handler(int signal_num) \x7b\n    switch (signal_num) \x7b\n        case SIGSEGV:\n            fprintf(stderr, \"Segmentation fault (accessing invalid memory)\\n\");\n            exit(1);\n        case SIGFPE:\n            fprintf(stderr, \"Floating point exception (division by zero)\\n\");\n            exit(1);\n        case SIGABRT:\n            fprintf(stderr, \"Aborted (assertion failed or abort() called)\\n\");\n            exit(1);\n    \x7d\n\x7d\n\nint main() \x7b\n    signal(SIGSEGV, signal_handler);\n    signal(SIGFPE, signal_handler);\n    signal(SIGABRT, signal_handler);\n    "

/-- The source text `executeC` writes to its temp `.c` file: signal-handler
harness around the fragment; a fragment with its own `main()` has that
header stripped and its final character dropped. -/
def cExecutionWrappedCode (code : String) : String :=
  cSignalPrefix ++
    (if strContains code "main()" then
      String.mk ((removeFirstIntMain [] code.data).dropLast)
    else code) ++
    "\n    return 0;\n\x7d"

/-- An execute helper run instrumented with the source it wrote. -/
structure ExecRun where
  result : ExecResult
  writtenSource : String
deriving DecidableEq

/-- `executeC(code)`: dockerised `gcc` build then run, each bounded; the
reported `success` is `stderr ? false : true` on the run step. -/
def executeC (code : String) (compileRun runRun : ProcOutcome) : ExecRun :=
  { writtenSource := cExecutionWrappedCode code
    result :=
      match compileRun with
      | ProcOutcome.err _ message =>
        { success := false, output := none, error := some (timeoutMappedMessage message) }
      | ProcOutcome.ok _ _ =>
        match runRun with
        | ProcOutcome.ok stdout stderr =>
          { success := stderr == "", output := some stdout,
            error := if stderr = "" then none else some stderr }
        | ProcOutcome.err _ message =>
          { success := false, output := none, error := some (timeoutMappedMessage message) } }

/-! ## The `/check-syntax` endpoint of `server.js` -/

/-- A 4xx JSON error response. -/
structure ApiError where
  status : Nat
  error : String
  supported : Option (List String) := none
  help : Option String := none
deriving DecidableEq

/-- What the endpoint sends back: an early client error, or the checker
result decorated with the language info. -/
inductive Response where
  | apiErr (e : ApiError)
  | success (result : CheckResult) (requested normalized : String)
deriving DecidableEq

/-- The response is a 4xx client error. -/
def Response.isClientError : Response → Bool
  | Response.apiErr e => decide (400 ≤ e.status) && decide (e.status < 500)
  | Response.success _ _ _ => false

/-- The `/check-syntax` handler of `server.js`.  `checkers` is the oracle for
the per-language checker invoked on the wrapped code; the second component
records which checker was dispatched (`none`: the request was rejected
before wrapping, before any toolchain invocation and before any temp-file
or container allocation — those happen only inside the checkers). -/
def handleCheckSyntax (checkers : String → String → CheckResult) (now : Nat)
    (code language : String) : Response × Option String :=
  if code = "" ∨ language = "" then
    (Response.apiErr { status := 400, error := "Code and language are required",
                       help := some "Please provide both code and language parameters." }, none)
  else if 1000000 < code.length then
    (Response.apiErr { status := 400, error := "Code size exceeds maximum limit of 1MB",
                       help := some "Please reduce the size of your code snippet." }, none)
  else
    match normalizeLanguage language with
    | none =>
      (Response.apiErr { status := 400, error := "Unsupported language",
                         supported := some supportedLanguages,
                         help := some "Please use one of the supported language identifiers." }, none)
    | some normalizedLang =>
      let hasWrapper := !(strContains code "main(") && !(strContains code "class")
      let wrappedCode := wrapCodeSnippet code normalizedLang now
      let result := checkers normalizedLang wrappedCode
      let result' :=
        if !result.valid && hasWrapper then
          adjustErrorLineNumbers result normalizedLang hasWrapper
        else result
      (Response.success result' language normalizedLang, some normalizedLang)

/-! ## Concrete request material used by witnesses and counterexamples -/

/-- A checker oracle that accepts everything (the endpoint theorems below
hold for every oracle; witnesses need a concrete one). -/
def trivialCheckers : String → String → CheckResult :=
  fun _ _ => { valid := true }

/-- A source string one character over the 1 MiB mark. -/
def bigCode : String :=
  String.mk (List.replicate 1048577 'a')

/-- A g++ oracle for a snippet every standard except the newest accepts:
`c++20` fails with a standard-compatibility complaint, all older standards
succeed. -/
def cppOracleOldValid : String → ProcOutcome :=
  fun std =>
    if std = "c++20" then
      ProcOutcome.err "error: ISO C++ forbids this construct in the selected standard" ""
    else ProcOutcome.ok "" ""

/-! # Theorems -/

/-- `strContains` agrees with list infixhood on the underlying characters. -/
theorem strContains_spec (s pat : String) :
    strContains s pat = true ↔ pat.data <:+: s.data := by
  unfold strContains
  rw [List.any_eq_true]
  constructor
  · rintro ⟨t, ht, hp⟩
    rw [List.mem_tails] at ht
    rw [ List.isPrefixOf_iff_prefix] at hp
    exact (List.infix_iff_prefix_suffix ..).mpr ⟨t, hp, ht⟩
  · intro h
    obtain ⟨t, hp, ht⟩ := (List.infix_iff_prefix_suffix ..).mp h
    exact ⟨t, (List.mem_tails ..).mpr ht, ( List.isPrefixOf_iff_prefix).mpr hp⟩

/-- C10: a request whose `code` or `language` field is the empty string is
rejected with the 400 "required" client error before normalization,
wrapping, or any checker dispatch (the falsy check `!code || !language`
catches empty strings). -/
theorem empty_fields_rejected (checkers : String → String → CheckResult)
    (now : Nat) (code language : String) (h : code = "" ∨ language = "") :
    handleCheckSyntax checkers now code language =
      (Response.apiErr { status := 400, error := "Code and language are required",
                         help := some "Please provide both code and language parameters." }, none) := by
  unfold handleCheckSyntax
  exact if_pos h

/-- Witness for C10 at a concrete request: empty `code`, language
`"python"`. -/
theorem empty_fields_rejected_witness :
    handleCheckSyntax trivialCheckers 0 "" "python" =
      (Response.apiErr { status := 400, error := "Code and language are required",
                         help := some "Please provide both code and language parameters." }, none) :=
  empty_fields_rejected trivialCheckers 0 "" "python" (Or.inl rfl)

/-- C7: an identifier missing from the alias table makes the endpoint answer
a 400 client error carrying the supported alias set
(`Object.keys(LANGUAGE_ALIASES)`), with no checker dispatched — hence no
toolchain invocation and no temp file for that request. -/
theorem unsupported_language_rejected (checkers : String → String → CheckResult)
    (now : Nat) (code language : String)
    (h1 : code ≠ "") (h2 : language ≠ "") (h3 : code.length ≤ 1000000)
    (h4 : normalizeLanguage language = none) :
    handleCheckSyntax checkers now code language =
      (Response.apiErr { status := 400, error := "Unsupported language",
                         supported := some supportedLanguages,
                         help := some "Please use one of the supported language identifiers." }, none) := by
  unfold handleCheckSyntax
  rw [ if_neg (not_or.mpr ⟨h1, h2⟩), if_neg (Nat.not_lt.mpr h3), h4]

/-- Witness for C7 at the concrete unsupported identifier `"cobol"`. -/
theorem unsupported_language_rejected_witness :
    normalizeLanguage "cobol" = none ∧
      handleCheckSyntax trivialCheckers 0 "x = 1" "cobol" =
        (Response.apiErr { status := 400, error := "Unsupported language",
                           supported := some supportedLanguages,
                           help := some "Please use one of the supported language identifiers." }, none) :=
  ⟨by decide, unsupported_language_rejected trivialCheckers 0 "x = 1" "cobol"
    (by decide) (by decide) (by decide) (by decide)⟩

/-- C6: a request whose code exceeds 1 MiB (2^20 bytes) is answered with a
4xx client error and no checker is dispatched, for every language path
(the handler's own threshold, 1,000,000 characters — the source comments
call it "1MB" — is even stricter, and it is tested before normalization and
wrapping, so no toolchain runs and no temp file or container is created). -/
theorem oversize_rejected_before_dispatch (checkers : String → String → CheckResult)
    (now : Nat) (code language : String) (h : 1048576 < code.length) :
    (handleCheckSyntax checkers now code language).1.isClientError = true ∧
      (handleCheckSyntax checkers now code language).2 = none := by
  unfold handleCheckSyntax
  by_cases hL : language = ""
  · rw [ if_pos (Or.inr hL)]
    exact ⟨rfl, rfl⟩
  · have hc : ¬ (code = "" ∨ language = "") := by
      refine not_or.mpr ⟨?_, hL⟩
      intro h0
      rw [ h0] at h
      exact absurd h (by decide)
    rw [ if_neg hc, if_pos (Nat.lt_trans (by norm_num) h)]
    exact ⟨rfl, rfl⟩

/-- Witness for C6: a concrete 1048577-character Java-tagged request. -/
theorem oversize_rejected_before_dispatch_witness :
    1048576 < bigCode.length ∧
      (handleCheckSyntax trivialCheckers 0 bigCode "java").1.isClientError = true ∧
      (handleCheckSyntax trivialCheckers 0 bigCode "java").2 = none := by
  have hlen : bigCode.length = 1048577 := by
    have h0 : bigCode.length = (List.replicate 1048577 'a').length := rfl
    rw [ h0, List.length_replicate]
  have h : 1048576 < bigCode.length := by
    rw [ hlen]
    norm_num
  exact ⟨h, oversize_rejected_before_dispatch trivialCheckers 0 bigCode "java" h⟩

/-- C1: the remap table `adjustErrorLineNumbers` subtracts does not match the
number of lines `wrapCodeSnippet` injects.  For the cpp snippet
`"int x = ;"` (no `main(`/`class`/`template`, so the endpoint adjusts), the
wrapper places the user's first line at raw line 27 (26 injected lines, vs
the table's 24), and a diagnostic at raw line 27 — user-visible line 1 —
comes back as line 3. -/
theorem c1_line_remap_mismatch :
    (splitLines (wrapCodeSnippet "int x = ;" "cpp" 0)).getD 26 "" = "    int x = ;" ∧
      (adjustErrorLineNumbers
          { valid := false,
            errors := some [{ line := 27, column := 9, type := "error",
                              message := "expected primary-expression" }] }
          "cpp" true).errors =
        some [{ line := 3, column := 9, type := "error",
                message := "expected primary-expression" }] := by
  decide

/-- C2 counterexample: with the oracle where the newest standard (`c++20`)
rejects with a standard-compatibility complaint and every older standard
accepts, the driver reports `C++17` — the newest accepting standard — not
the oldest accepting one (`C++98`). -/
theorem c2_dialect_counterexample :
    cppOracleOldValid "c++20" =
        ProcOutcome.err "error: ISO C++ forbids this construct in the selected standard" "" ∧
      cppOracleOldValid "c++98" = ProcOutcome.ok "" "" ∧
      (checkCPPSyntax cppOracleOldValid "int x = 1;").standard = some "C++17" ∧
      (some "C++17" : Option String) ≠ some "C++98" := by
  decide

/-- The fallback loop stops at the first accepting standard of the
newest→oldest scan, provided every failure before it mentions "standard". -/
theorem cppSearchLoop_first_ok (compile : String → ProcOutcome)
    (post : List (String × String)) (std name out errout : String)
    (hok : compile std = ProcOutcome.ok out errout) :
    ∀ pre : List (String × String),
      (∀ p ∈ pre, ∃ st m, compile p.1 = ProcOutcome.err st m ∧ strContains st "standard" = true) →
      ∀ le : Option String,
        ∃ le', cppSearchLoop compile (pre ++ (std, name) :: post) le = (true, le', some name) := by
  intro pre
  induction pre with
  | nil =>
    intro _ le
    exact ⟨le, by simp [cppSearchLoop, hok]⟩
  | cons q pre' ih =>
    obtain ⟨q1, q2⟩ := q
    intro hpre le
    obtain ⟨st, m, hq, hstd⟩ := hpre (q1, q2) (List.mem_cons_self ..)
    obtain ⟨le', hle'⟩ := ih (fun p hp => hpre p (List.mem_cons_of_mem _ hp)) (some st)
    exact ⟨le', by simpa [cppSearchLoop, hq, hstd] using hle'⟩

/-- C2 amended: the driver reports `dialectUsed` equal to the **newest**
standard in the fixed newest→oldest list that accepts the code, provided
each newer standard's failure output mentions "standard" (a newer failure
without that word stops the search there instead). -/
theorem checkCPPSyntax_first_accepting (compile : String → ProcOutcome) (code : String)
    (pre post : List (String × String)) (std name out errout : String)
    (hsize : code.length ≤ 1000000)
    (hdecomp : cppStandards = pre ++ (std, name) :: post)
    (hpre : ∀ p ∈ pre, ∃ st m, compile p.1 = ProcOutcome.err st m ∧ strContains st "standard" = true)
    (hok : compile std = ProcOutcome.ok out errout) :
    (checkCPPSyntax compile code).valid = true ∧
      (checkCPPSyntax compile code).standard = some name := by
  obtain ⟨le', hloop⟩ := cppSearchLoop_first_ok compile post std name out errout hok pre hpre none
  unfold checkCPPSyntax
  rw [ if_neg (Nat.not_lt.mpr hsize), hdecomp, hloop]
  exact ⟨rfl, rfl⟩

/-- Witness for C2's amended claim: the `cppOracleOldValid` oracle, with the
list split after the failing `c++20` attempt; the search settles on
`C++17`. -/
theorem checkCPPSyntax_first_accepting_witness :
    cppStandards =
        [("c++20", "C++20")] ++ ("c++17", "C++17") ::
          [("c++14", "C++14"), ("c++11", "C++11"), ("c++98", "C++98")] ∧
      (checkCPPSyntax cppOracleOldValid "int x = 1;").valid = true ∧
      (checkCPPSyntax cppOracleOldValid "int x = 1;").standard = some "C++17" := by
  refine ⟨by decide, ?_⟩
  refine checkCPPSyntax_first_accepting cppOracleOldValid "int x = 1;"
    [("c++20", "C++20")] [("c++14", "C++14"), ("c++11", "C++11"), ("c++98", "C++98")]
    "c++17" "C++17" "" "" (by decide) (by decide) ?_ (by decide)
  intro p hp
  rw [List.mem_singleton] at hp
  subst hp
  exact ⟨"error: ISO C++ forbids this construct in the selected standard", "",
    by decide, by decide⟩

/-- C3 counterexample: preparing the same class-less Java fragment at two
different `Date.now()` values yields structurally different wrapped output
(the synthesized class names differ). -/
theorem c3_wrap_nondeterministic :
    wrapCodeSnippet "int x = 1;" "java" 0 ≠ wrapCodeSnippet "int x = 1;" "java" 1 := by
  decide

/-- C3 amended: preparation is a pure function of `(code, language)` on
every path except the Java synthesized-class path (whose output embeds
`Date.now()` in the class name, so only two preparations observing the same
clock value coincide there); the `wrapperLines` offsets are per-language
constants, so the offset used for remapping is always reproducible. -/
theorem wrapCodeSnippet_time_independent (code language : String) (t₁ t₂ : Nat)
    (h : jsToLower language = "java" → strContains code "class" = true) :
    wrapCodeSnippet code language t₁ = wrapCodeSnippet code language t₂ := by
  by_cases hc : jsToLower language = "cpp"
  · simp [wrapCodeSnippet, hc]
  · by_cases hj : jsToLower language = "java"
    · simp [wrapCodeSnippet, hc, hj, h hj]
    · simp [wrapCodeSnippet, hc, hj]

/-- Witness for C3's amended claim: a fragment that already declares a class
wraps identically at `Date.now()` values 0 and 1. -/
theorem wrapCodeSnippet_time_independent_witness :
    strContains "class A \x7b\x7d" "class" = true ∧
      wrapCodeSnippet "class A \x7b\x7d" "java" 0 = wrapCodeSnippet "class A \x7b\x7d" "java" 1 :=
  ⟨by decide, wrapCodeSnippet_time_independent "class A \x7b\x7d" "java" 0 1 (fun _ => by decide)⟩

/-- C5 counterexample: two distinct class-less Java fragments wrapped in the
same `Date.now()` millisecond receive the *same* synthesized wrapper class
name `Solution_77` — the name is not derived from a per-request unique
token. -/
theorem c5_name_collision :
    ("int a = 1;" : String) ≠ "int b = 2;" ∧
      strContains (wrapCodeSnippet "int a = 1;" "java" 77) "class Solution_77" = true ∧
      strContains (wrapCodeSnippet "int b = 2;" "java" 77) "class Solution_77" = true := by
  decide

/-- C5 amended: the synthesized wrapper class name is
`Solution_<Date.now()>`, a function of the wall-clock millisecond alone —
whatever the fragment, the wrapped output declares exactly that class, so
requests wrapped in the same millisecond collide on the name. -/
theorem javaWrap_name_from_clock (code : String) (t : Nat)
    (h : strContains code "class" = false) :
    strContains (wrapCodeSnippet code "java" t)
      ("class " ++ javaSyntheticClassName t) = true := by
  have hwrap : wrapCodeSnippet code "java" t = javaClassWrap t (unindentCode code) := by
    have hjava : jsToLower "java" = "java" := by decide
    have hcpp : ¬ jsToLower "java" = "cpp" := by decide
    simp [wrapCodeSnippet, hjava, hcpp, h]
  rw [ hwrap, strContains_spec]
  refine ⟨(javaImports ++ "\n\n").data,
    (javaMainOpen ++ unindentCode code ++ javaMainClose).data, ?_⟩
  simp [javaClassWrap, String.data_append, List.append_assoc]

/-- Witness for C5's amended claim at a concrete fragment and millisecond. -/
theorem javaWrap_name_from_clock_witness :
    strContains "int a = 1;" "class" = false ∧
      strContains (wrapCodeSnippet "int a = 1;" "java" 5)
        ("class " ++ javaSyntheticClassName 5) = true :=
  ⟨by decide, javaWrap_name_from_clock "int a = 1;" 5 (by decide)⟩

/-- C4 counterexample: a `node` run that exits successfully (zero status)
but wrote to stderr is reported by `executeJavaScript` as
`success: false` (likewise `executeC` on its run step), contradicting the
claim that execution success reflects only the exit status. -/
theorem c4_stderr_failure_counterexample :
    (executeJavaScript (ProcOutcome.ok "hello" "DeprecationWarning: x")).success = false ∧
      (executeJavaScript (ProcOutcome.ok "hello" "DeprecationWarning: x")).error =
        some "DeprecationWarning: x" ∧
      (executeC "" (ProcOutcome.ok "" "") (ProcOutcome.ok "hi" "note: y")).result.success = false := by
  decide

/-- C4 amended: `executeJava` and `executePython` report a zero-exit run as
succeeded and surface its stderr (if any) in the `error` field, but
`executeJavaScript` and `executeC` make `success` equal to stderr emptiness,
reporting a zero-exit run with non-empty stderr as a failure. -/
theorem execute_success_stderr_policy (stdout stderr : String) :
    (executeJava (ProcOutcome.ok "" "") (ProcOutcome.ok stdout stderr)).success = true ∧
      (executeJava (ProcOutcome.ok "" "") (ProcOutcome.ok stdout stderr)).error =
        (if stderr = "" then none else some stderr) ∧
      (executePython (ProcOutcome.ok stdout stderr)).success = true ∧
      (executePython (ProcOutcome.ok stdout stderr)).error =
        (if stderr = "" then none else some stderr) ∧
      (executeJavaScript (ProcOutcome.ok stdout stderr)).success =
        (if stderr = "" then true else false) ∧
      (executeC "" (ProcOutcome.ok "" "") (ProcOutcome.ok stdout stderr)).result.success =
        (if stderr = "" then true else false) := by
  by_cases h : stderr = "" <;>
    simp [executeJava, executePython, executeJavaScript, executeC, h, beq_eq_false_iff_ne]

/-- C8 counterexample: on the compile-error path of the Java syntax checker
only the temp `.java` file is deleted; the `.class` file is not among the
deleted paths (and in the `part_003` revision the error path deletes
nothing at all). -/
theorem c8_class_file_not_deleted :
    (checkJavaSyntaxRun (ProcOutcome.err "Solution_0.java:14: error: expected ;" "m") 0
        "class A \x7b\x7d").tempFilesDeleted = ["Solution_0.java"] ∧
      "Solution_0.class" ∉
        (checkJavaSyntaxRun (ProcOutcome.err "Solution_0.java:14: error: expected ;" "m") 0
          "class A \x7b\x7d").tempFilesDeleted := by
  decide

/-- C8 amended: every temp file the Java and Python checkers create is
deleted on both the success and the compile-error path; the Java checker
additionally deletes the `.class` artifact, but only on its success path
(a failed compilation emits none). -/
theorem checkJava_cleanup_paths (compile : ProcOutcome) (now : Nat) (code : String)
    (h : code.length ≤ 1000000) :
    (checkJavaSyntaxRun compile now code).tempFilesCreated ⊆
        (checkJavaSyntaxRun compile now code).tempFilesDeleted ∧
      (checkJavaSyntaxRun compile now code).tempFilesDeleted =
        (match compile with
         | ProcOutcome.ok _ _ =>
             ["Solution_" ++ toString now ++ ".java", "Solution_" ++ toString now ++ ".class"]
         | ProcOutcome.err _ _ => ["Solution_" ++ toString now ++ ".java"]) ∧
      (checkPythonSyntaxRun compile now code).tempFilesCreated ⊆
        (checkPythonSyntaxRun compile now code).tempFilesDeleted := by
  have hnot : ¬ (1000000 < code.length) := Nat.not_lt.mpr h
  cases compile <;>
    simp [checkJavaSyntaxRun, checkPythonSyntaxRun, hnot, List.subset_def]

/-- Witness for C8's amended claim on the concrete compile-error path. -/
theorem checkJava_cleanup_paths_witness :
    ("class A \x7b\x7d" : String).length ≤ 1000000 ∧
      (checkJavaSyntaxRun (ProcOutcome.err "e" "m") 0 "class A \x7b\x7d").tempFilesCreated ⊆
        (checkJavaSyntaxRun (ProcOutcome.err "e" "m") 0 "class A \x7b\x7d").tempFilesDeleted ∧
      (checkJavaSyntaxRun (ProcOutcome.err "e" "m") 0 "class A \x7b\x7d").tempFilesDeleted =
        ["Solution_" ++ toString 0 ++ ".java"] := by
  have h : ("class A \x7b\x7d" : String).length ≤ 1000000 := by decide
  have hmain := checkJava_cleanup_paths (ProcOutcome.err "e" "m") 0 "class A \x7b\x7d" h
  exact ⟨h, hmain.1, hmain.2.1⟩

/-- C9 counterexample: a strict-warnings `gcc` invocation that exits zero
while emitting a (parseable) warning on stderr yields `valid: true` with
*no* diagnostics — the warning is dropped, contradicting the claim that
warnings always appear as diagnostics. -/
theorem c9_warning_dropped :
    parseGccLine "t.c:3:5: warning: unused variable x" =
        some { file := "t.c", line := 3, column := 5, severity := "warning",
               msg := "unused variable x" } ∧
      (checkCSyntax (ProcOutcome.ok "" "t.c:3:5: warning: unused variable x") "int main").valid
        = true ∧
      (checkCSyntax (ProcOutcome.ok "" "t.c:3:5: warning: unused variable x") "int main").errors
        = none := by
  decide

/-- C9 amended: `valid` mirrors the compiler's exit status — on a non-zero
exit every stderr line matching the gcc diagnostic pattern (warnings *and*
errors) is captured as a structured diagnostic, while on a zero exit the
result is valid and carries no diagnostics, so warnings of a successful run
are discarded. -/
theorem checkCSyntax_exit_status_policy (code st m l : String) (d : GccDiag)
    (hsize : code.length ≤ 1000000)
    (hl : l ∈ splitLines st)
    (hp : parseGccLine l = some d) :
    (checkCSyntax (ProcOutcome.err st m) code).valid = false ∧
      ({ line := d.line, column := d.column, type := d.severity,
         message := jsTrim d.msg, suggestion := none } : ErrEntry) ∈
        ((checkCSyntax (ProcOutcome.err st m) code).errors.getD []) ∧
      ∀ so se : String,
        (checkCSyntax (ProcOutcome.ok so se) code).valid = true ∧
          (checkCSyntax (ProcOutcome.ok so se) code).errors = none := by
  have hnot : ¬ (1000000 < code.length) := Nat.not_lt.mpr hsize
  refine ⟨by simp [checkCSyntax, hnot], ?_, fun so se =>
    ⟨by simp [checkCSyntax, hnot], by simp [checkCSyntax, hnot]⟩⟩
  simp only [checkCSyntax, hnot, if_false, ite_false, Option.getD_some]
  simp only [gccDiagnostics, List.mem_filterMap]
  exact ⟨l, hl, by rw [ hp]; rfl⟩

/-- Witness for C9's amended claim: a concrete failing invocation whose
stderr carries one warning line; the warning is captured. -/
theorem checkCSyntax_exit_status_policy_witness :
    ("int main" : String).length ≤ 1000000 ∧
      "t.c:2:5: warning: unused" ∈ splitLines "t.c:2:5: warning: unused" ∧
      parseGccLine "t.c:2:5: warning: unused" =
        some { file := "t.c", line := 2, column := 5, severity := "warning", msg := "unused" } ∧
      (checkCSyntax (ProcOutcome.err "t.c:2:5: warning: unused" "boom") "int main").valid
        = false ∧
      ({ line := 2, column := 5, type := "warning", message := jsTrim "unused",
         suggestion := none } : ErrEntry) ∈
        ((checkCSyntax (ProcOutcome.err "t.c:2:5: warning: unused" "boom") "int main").errors.getD []) := by
  have hmain := checkCSyntax_exit_status_policy "int main" "t.c:2:5: warning: unused" "boom"
    "t.c:2:5: warning: unused"
    { file := "t.c", line := 2, column := 5, severity := "warning", msg := "unused" }
    (by decide) (by decide) (by decide)
  exact ⟨by decide, by decide, by decide, hmain.1, hmain.2.1⟩

end SyntaxCheckerServer
